import Mathlib

/-!
Verification of the `pvt_skills_scraper` repository core
(`src/seek_scraper_ids.py` and `src/seek_scraper_jc.py`) against its
natural-language specification.

The Python sources are shallowly embedded below.  Strings are handled as
`List Char` (Python strings are character sequences); DOM queries performed
through BeautifulSoup are embedded by recording, for each selector the code
uses, the text the selector would produce on the page, and the network /
browser is embedded as an explicit fetch function passed to the scraping
functions.  Python `float` day counts are embedded as exact
numerator/divisor pairs (`DayCount`), compared by cross multiplication:
the code only ever builds the quotients `value/1440`, `value/24`, `value/1`
and `float('inf')` (embedded as `none`), and for these correctly rounded
quotients IEEE comparison agrees with exact rational comparison except for
astronomically long digit strings, which no claim involves.
-/

/- ## Python string primitives -/

/-- Decides whether the first list is a prefix of the second (used for
substring search, mirroring Python's `in`, `str.find` and `str.replace`). -/
def isPrefixOfCh : List Char → List Char → Bool
  | [], _ => true
  | _ :: _, [] => false
  | a :: as, b :: bs => a == b && isPrefixOfCh as bs

/-- Decides whether `needle` occurs as a contiguous run inside `hay`. -/
def containsSub (hay needle : List Char) : Bool :=
  match hay with
  | [] => needle.isEmpty
  | _ :: t => isPrefixOfCh needle hay || containsSub t needle

/-- Python's `needle in hay` on strings. -/
def inStr (needle hay : String) : Bool := containsSub hay.data needle.data

/-- Scan of `hay` for the first position `idx ≥ start` where `needle` starts,
counting positions from `idx`.  Helper for `pyFind`. -/
def findSubAux (needle : List Char) : List Char → ℕ → ℕ → Option ℕ
  | [], _, _ => none
  | c :: t, start, idx =>
    if start ≤ idx && isPrefixOfCh needle (c :: t) then some idx
    else findSubAux needle t start (idx + 1)

/-- Python's `s.find(sub, start)` for a nonempty `sub` and nonnegative
`start`: index of the first occurrence at or after `start`, `-1` if none. -/
def pyFind (s sub : String) (start : ℕ) : Int :=
  match findSubAux sub.data s.data start 0 with
  | some i => (i : Int)
  | none => -1

/-- Python's `s[a:]` for a nonnegative index. -/
def pySliceFrom (s : String) (a : ℕ) : String := ⟨s.data.drop a⟩

/-- Python's `s[a:b]` for nonnegative indices. -/
def pySliceRange (s : String) (a b : ℕ) : String := ⟨(s.data.take b).drop a⟩

/-- Characters Python's `str.strip()` and the regex class `\s` treat as
whitespace (ASCII portion; the sources only ever meet ASCII spacing). -/
def isPyWs (c : Char) : Bool := c == ' ' || c == '\t' || c == '\n' || c == '\r'

/-- Drops leading whitespace characters. -/
def dropLeadingWs : List Char → List Char
  | [] => []
  | c :: t => if isPyWs c then dropLeadingWs t else c :: t

/-- Python's `s.strip()`: leading and trailing whitespace removed. -/
def trimCh (l : List Char) : List Char :=
  dropLeadingWs ((dropLeadingWs l.reverse).reverse)

/-- Lower-casing of a character sequence (Python `str.lower()`; the
sources only lower-case ASCII text). -/
def lowerCh (l : List Char) : List Char := l.map Char.toLower

/-- Fuelled worker for `replaceAllCh`.  One fuel unit is spent per
character position, which `replaceAllCh` supplies in full. -/
def replaceAllChFuel (needle repl : List Char) : ℕ → List Char → List Char
  | 0, l => l
  | _ + 1, [] => []
  | fuel + 1, c :: t =>
    if isPrefixOfCh needle (c :: t) && !needle.isEmpty then
      repl ++ replaceAllChFuel needle repl fuel (t.drop (needle.length - 1))
    else
      c :: replaceAllChFuel needle repl fuel t

/-- Python's `s.replace(needle, repl)` for nonempty `needle`: every
leftmost non-overlapping occurrence replaced. -/
def replaceAllCh (needle repl l : List Char) : List Char :=
  replaceAllChFuel needle repl l.length l

/-- Embeds `sanitize_text` (both source files).  The Python function
re-encodes the string through UTF-8 with surrogate escaping/replacement,
which is the identity on every well-formed Unicode string; Lean strings
are always well-formed Unicode, so the embedding is the identity. -/
def sanitize_text (text : String) : String := text

/- ## TimeNormalizer: `_convert_to_days` and `_is_within_time_limit`
     (src/seek_scraper_ids.py lines 296-361, duplicated in
      src/seek_scraper_jc.py lines 254-299) -/

/-- Exact value of a finite Python float day count produced by
`_convert_to_days`: the quotient `num / den` (`den` is `1440`, `24` or
`1`).  `float('inf')` is represented by `none` at the use sites. -/
structure DayCount where
  num : ℕ
  den : ℕ
deriving Repr, DecidableEq

/-- Value equality of two finite day counts, by cross multiplication
(Python compares the floats themselves with `==`). -/
def daysEqv (a b : DayCount) : Bool := a.num * b.den == b.num * a.den

/-- Python's `<` on the day-count floats, `none` standing for
`float('inf')`: `inf < x` is false for every `x` (including `inf`),
`finite < inf` is true, and finite values compare by value. -/
def daysLt : Option DayCount → Option DayCount → Bool
  | none, _ => false
  | some _, none => true
  | some a, some b => decide (a.num * b.den < b.num * a.den)

/-- Leading digit run of a character list, with the rest
(the regex fragment `(\d+)`, which is greedy). -/
def takeDigits : List Char → List Char × List Char
  | [] => ([], [])
  | c :: t =>
    if c.isDigit then
      let p := takeDigits t
      (c :: p.1, p.2)
    else ([], c :: t)

/-- Numeric value of a digit run. -/
def digitsVal (ds : List Char) : ℕ :=
  ds.foldl (fun a c => 10 * a + (c.toNat - 48)) 0

/-- The anchored regex match `re.match(r'(\d+)\s*([mhd])', s)`: a leading
digit run, optional whitespace, then one unit character `m`, `h` or `d`;
returns the parsed value and the unit character. -/
def matchTime (l : List Char) : Option (ℕ × Char) :=
  let p := takeDigits l
  if p.1.isEmpty then none
  else
    match dropLeadingWs p.2 with
    | [] => none
    | u :: _ => if u == 'm' || u == 'h' || u == 'd' then some (digitsVal p.1, u) else none

/-- The cleaning pipeline of `_convert_to_days`:
`posted_time.lower().replace('posted', '').strip()`. -/
def cleanPostedTime (s : String) : List Char :=
  trimCh (replaceAllCh "posted".data [] (lowerCh s.data))

/-- Day count for a parsed value and unit character: `value/(24*60)` days
for minutes, `value/24` for hours, `value` for days. -/
def unit_to_days (v : ℕ) (u : Char) : DayCount :=
  if u == 'm' then ⟨v, 24 * 60⟩
  else if u == 'h' then ⟨v, 24⟩
  else ⟨v, 1⟩

/-- Embeds `_convert_to_days` (src/seek_scraper_ids.py lines 296-341):
empty input or input containing the literal text `not found` yields
`float('inf')` (`none`), otherwise the string is lower-cased, every
occurrence of `posted` removed, whitespace-trimmed, and matched against
`(\d+)\s*([mhd])`; a failed match yields `none`, a successful one the
unit-converted day count. -/
def _convert_to_days (posted_time : String) : Option DayCount :=
  if posted_time == "" || inStr "not found" posted_time then none
  else
    match matchTime (cleanPostedTime posted_time) with
    | none => none
    | some vu => some (unit_to_days vu.1 vu.2)

/-- Embeds `_is_within_time_limit` (src/seek_scraper_ids.py lines
343-361): a falsy limit (Python `None` or the empty string) passes
everything; otherwise the posted day count must be strictly below the
limit day count under Python float `<`. -/
def _is_within_time_limit (posted_date : String) (posted_date_limit : Option String) : Bool :=
  match posted_date_limit with
  | none => true
  | some lim =>
    if lim == "" then true
    else daysLt (_convert_to_days posted_date) (_convert_to_days lim)

/-- Spec-side rendering of the C7 parsing description, for comparison with
the source-derived `_convert_to_days`: it strips one literal `posted`
PREFIX (not every occurrence) plus surrounding whitespace,
case-insensitively, then parses a leading integer followed by a unit
code, and returns `+infinity` (`none`) on any parse failure. -/
def to_days_claimed (posted_time : String) : Option DayCount :=
  let t := lowerCh posted_time.data
  let t1 := if isPrefixOfCh "posted".data t then t.drop 6 else t
  match matchTime (trimCh t1) with
  | none => none
  | some vu => some (unit_to_days vu.1 vu.2)

/- ## `extract_job_id` (src/seek_scraper_ids.py lines 140-160) -/

/-- Embeds `extract_job_id`: `start_index = url.find('/job/') + 5`;
`end_index = url.find('?', start_index)`; returns `url[start_index:]`
when there is no `?`, else `url[start_index:end_index]`.  (The
`try/except` in the source cannot fire: none of these operations
raises.) -/
def extract_job_id (url : String) : String :=
  let start_index : Int := pyFind url "/job/" 0 + 5
  let end_index : Int := pyFind url "?" start_index.toNat
  if end_index == -1 then pySliceFrom url start_index.toNat
  else pySliceRange url start_index.toNat end_index.toNat

/- ## PaginationWalker: `scrape_job_cards` (src/seek_scraper_ids.py
      lines 392-476) -/

/-- The site base URL (`self.base_url`). -/
def base_url : String := "https://www.seek.com.au"

/-- Models `urllib.parse.urljoin(base, href)` for the href shapes the
site emits: an absolute URL passes through; a host-relative path is
joined to the bare-host base. -/
def urljoin (base href : String) : String :=
  if inStr "://" href then href
  else if isPrefixOfCh "/".data href.data then base ++ href
  else base ++ "/" ++ href

/-- One job card of a search-results page, as the card loop of
`scrape_job_cards` reads it: the href of the card's first anchor
(`card.select_one('a')`, `none` when the card has no usable link) and
the posting-age text `extract_posting_time` produces for the card. -/
structure Card where
  href : Option String
  posted : String
deriving Repr, DecidableEq

/-- One fetched search-results page: its job cards in document order
(`soup.select('article[data-automation="normalJob"], ...')`) and the
next-page URL `get_next_page_url` resolves from the `page-(N+1)` link
(`none` when that link is absent). -/
structure Page where
  cards : List Card
  next : Option String
deriving Repr, DecidableEq

/-- One accumulated result entry
(`{'job_id': ..., 'posted_date': ..., 'url': ...}`). -/
structure JobCard where
  job_id : String
  posted_date : String
  url : String
deriving Repr, DecidableEq

/-- Result of the per-card loop over one page: either the walk returned
early inside the loop (out-of-window card) or the loop ran to the end. -/
inductive CardsResult where
  | stopped (cards : List JobCard)
  | done (cards : List JobCard)
deriving Repr, DecidableEq

/-- Python truthiness of the `posted_date_limit` argument
(`None` and `""` are falsy). -/
def limit_truthy : Option String → Bool
  | none => false
  | some s => !(s == "")

/-- The card loop of `scrape_job_cards`: cards without a usable link are
skipped; for a linked card the job URL and id are derived; if a time
limit is configured and the card is outside it the function returns the
cards accumulated so far; otherwise the card is accumulated. -/
def processCards (limit : Option String) : List Card → List JobCard → CardsResult
  | [], acc => CardsResult.done acc
  | c :: rest, acc =>
    match c.href with
    | none => processCards limit rest acc
    | some href =>
      let job_url := urljoin base_url href
      let job_id := extract_job_id job_url
      if limit_truthy limit && !_is_within_time_limit c.posted limit then
        CardsResult.stopped acc
      else
        processCards limit rest (acc ++ [⟨job_id, c.posted, job_url⟩])

/-- How a run of the `while True` loop of `scrape_job_cards` ended. -/
inductive ExitReason where
  | fetchFail
  | outOfWindow
  | noNext
  | fuelOut
deriving Repr, DecidableEq

/-- The `while True` loop of `scrape_job_cards`: fetch the current page
(a failed fetch returns `[]`, discarding the accumulator), process its
cards (an out-of-window card returns the accumulated cards), then follow
the next-page link or finish.  `fuel` bounds the number of page fetches;
the Python loop is bounded by the site's own pagination, so every real
run is reproduced by some sufficient fuel.  The exit reason is recorded
for the statements about how a walk may end. -/
def walkLoop (fetch : String → Option Page) (limit : Option String) :
    ℕ → String → List JobCard → List JobCard × ExitReason
  | 0, _, _ => ([], ExitReason.fuelOut)
  | fuel + 1, url, acc =>
    match fetch url with
    | none => ([], ExitReason.fetchFail)
    | some page =>
      match processCards limit page.cards acc with
      | CardsResult.stopped cards => (cards, ExitReason.outOfWindow)
      | CardsResult.done cards =>
        match page.next with
        | none => (cards, ExitReason.noNext)
        | some nurl => walkLoop fetch limit fuel nurl cards

/-- Embeds `scrape_job_cards` (src/seek_scraper_ids.py lines 392-476):
the pagination walk starting from the search URL with an empty
accumulator.  (The outer `try/except` returning `[]` cannot fire in the
embedding: in selenium mode, which every endpoint uses, `fetch_page`
returns `None` rather than raising.) -/
def scrape_job_cards (fetch : String → Option Page) (search_url : String)
    (posted_date_limit : Option String) (fuel : ℕ) : List JobCard :=
  (walkLoop fetch posted_date_limit fuel search_url []).1

/-- Whether the card loop would stop the walk at this card: the card has
a usable link, a time limit is configured, and the card's posting age is
outside it. -/
def card_stops (limit : Option String) (c : Card) : Bool :=
  c.href.isSome && limit_truthy limit && !_is_within_time_limit c.posted limit

/-- The result entries a run of the card loop produces from a list of
cards none of which stops the walk: one entry per linked card, in
document order. -/
def cardRecords (cards : List Card) : List JobCard :=
  cards.filterMap fun c =>
    c.href.map fun href =>
      ⟨extract_job_id (urljoin base_url href), c.posted, urljoin base_url href⟩

/- ## PageFetcher: `_fetch_with_selenium` and `_fetch_with_aiohttp`
      (src/seek_scraper_ids.py lines 171-249, duplicated in
       src/seek_scraper_jc.py lines 157-235) -/

/-- Outcome of one selenium navigation attempt: a rendered page, or one
of the three caught exception classes (`TimeoutException`,
`WebDriverException`, any other `Exception`). -/
inductive SelAttempt where
  | success (html : String)
  | timeout
  | webdriver (msg : String)
  | failure (msg : String)
deriving Repr, DecidableEq

/-- Whether a `WebDriverException` message marks the session as fatally
broken, triggering `driver.quit()` / `_setup_selenium()` in the
handler: `"ERR_INTERNET_DISCONNECTED" in str(e) or "invalid session
id" in str(e)` (src/seek_scraper_ids.py line 211). -/
def sessionFatal (msg : String) : Bool :=
  inStr "ERR_INTERNET_DISCONNECTED" msg || inStr "invalid session id" msg

/-- The `for attempt in range(max_retries)` loop of
`_fetch_with_selenium` over the remaining attempt indices.  The first
successful navigation returns its page.  A timeout or a generic
exception is caught, a backoff sleep runs on non-final attempts
(timing only), and the next attempt is tried.  A `WebDriverException`
on a non-final attempt whose message marks the session fatally broken
additionally runs `driver.quit()` / `_setup_selenium()` inside the
handler; those calls are unguarded, so when the recreation itself
raises (`recreate a = some e`, e.g. Chrome fails to start) that
exception escapes the function.  An exhausted range returns `None`. -/
def seleniumGo (attempts : ℕ → SelAttempt) (recreate : ℕ → Option String)
    (max_retries : ℕ) : List ℕ → Except String (Option String)
  | [] => Except.ok none
  | a :: rest =>
    match attempts a with
    | SelAttempt.success html => Except.ok (some html)
    | SelAttempt.timeout => seleniumGo attempts recreate max_retries rest
    | SelAttempt.webdriver msg =>
      if a < max_retries - 1 then
        if sessionFatal msg then
          match recreate a with
          | some e => Except.error e
          | none => seleniumGo attempts recreate max_retries rest
        else seleniumGo attempts recreate max_retries rest
      else seleniumGo attempts recreate max_retries rest
    | SelAttempt.failure _ => seleniumGo attempts recreate max_retries rest

/-- Embeds `_fetch_with_selenium` (src/seek_scraper_ids.py lines
171-221, duplicated in src/seek_scraper_jc.py lines 157-207).
`recreate a` is the outcome of the session recreation performed inside
the `WebDriverException` handler when attempt `a` triggers it: `none`
when `driver.quit()` and `_setup_selenium()` complete, `some e` when
one of them raises, in which case the exception propagates out of the
function (`Except.error e`). -/
def _fetch_with_selenium (attempts : ℕ → SelAttempt)
    (recreate : ℕ → Option String) (max_retries : ℕ) :
    Except String (Option String) :=
  seleniumGo attempts recreate max_retries (List.range max_retries)

/-- Outcome of one aiohttp request attempt: HTTP 200 with a body,
HTTP 403, some other HTTP status, or a raised exception. -/
inductive HttpAttempt where
  | ok (html : String)
  | forbidden
  | status (code : ℕ)
  | exc (msg : String)
deriving Repr, DecidableEq

deriving instance DecidableEq for Except

/-- Observable result of a `_fetch_with_aiohttp` run: the returned value
(`Except.error` when the final attempt's exception is re-raised), the
user-agent chosen for each started attempt, and the waits slept. -/
structure AiohttpRun where
  result : Except String (Option String)
  agentsUsed : List String
  waits : List ℕ
deriving Repr, DecidableEq

/-- The `for attempt in range(max_retries)` loop of
`_fetch_with_aiohttp` over the remaining attempt indices.  Each started
attempt first installs a freshly chosen user-agent header (`ua a` embeds
`random.choice(self.user_agents)` at attempt `a`).  HTTP 200 returns the
page; HTTP 403 sleeps `2 ** attempt` and retries; another status retries
without sleeping; an exception sleeps 2 seconds and retries unless this
is the final attempt (`attempt < max_retries - 1` fails), in which case
it is re-raised.  An exhausted range returns `None`. -/
def aiohttpGo (attempts : ℕ → HttpAttempt) (ua : ℕ → String) (max_retries : ℕ) :
    List ℕ → List String → List ℕ → AiohttpRun
  | [], agents, waits => ⟨Except.ok none, agents, waits⟩
  | a :: rest, agents, waits =>
    match attempts a with
    | HttpAttempt.ok html => ⟨Except.ok (some html), agents ++ [ua a], waits⟩
    | HttpAttempt.forbidden =>
        aiohttpGo attempts ua max_retries rest (agents ++ [ua a]) (waits ++ [2 ^ a])
    | HttpAttempt.status _ =>
        aiohttpGo attempts ua max_retries rest (agents ++ [ua a]) waits
    | HttpAttempt.exc msg =>
        if a < max_retries - 1 then
          aiohttpGo attempts ua max_retries rest (agents ++ [ua a]) (waits ++ [2])
        else ⟨Except.error msg, agents ++ [ua a], waits⟩

/-- Embeds `_fetch_with_aiohttp` (src/seek_scraper_ids.py lines
223-249). -/
def _fetch_with_aiohttp (attempts : ℕ → HttpAttempt) (ua : ℕ → String)
    (max_retries : ℕ) : AiohttpRun :=
  aiohttpGo attempts ua max_retries (List.range max_retries) [] []

/- ## DetailExtractor: `extract_location`, `extract_job_details`,
      `categorize_job_type` and the batch loops
      (src/seek_scraper_jc.py lines 301-522, 558-681) -/

/-- The `data-automation="job-detail-location"` container of a listing
page, as `extract_location` queries it: the stripped text of its styled
anchor (`a[class*="gepq850"]`), of its first anchor (`a`), and of the
container itself. -/
structure LocContainer where
  styledAnchorText : Option String
  anyAnchorText : Option String
  text : String
deriving Repr, DecidableEq

/-- One rendered listing page, as `extract_job_details` queries it: for
each selector the code uses, the stripped text the selector would
produce (`none` when `select_one` finds no element), and the stripped
texts of the `[data-automation="jobDetailsPage"] span` elements in
document order. -/
structure Soup where
  titleText : Option String
  locationContainer : Option LocContainer
  pageLocationAnchor : Option String
  companyText : Option String
  descriptionText : Option String
  detailSpans : List String
  classificationsText : Option String
  workTypeText : Option String
deriving Repr, DecidableEq

/-- Embeds `extract_location` (src/seek_scraper_jc.py lines 301-333):
inside the location container, the styled anchor, then any anchor, then
the container's own text; without the container, the page-wide anchor
matching the location URL pattern; else the sentinel. -/
def extract_location (soup : Soup) : String :=
  match soup.locationContainer with
  | some c =>
    match c.styledAnchorText with
    | some t => sanitize_text t
    | none =>
      match c.anyAnchorText with
      | some t => sanitize_text t
      | none => sanitize_text c.text
  | none =>
    match soup.pageLocationAnchor with
    | some t => sanitize_text t
    | none => "Location not found"

/-- The posting-time scan of `extract_job_details`: the first span text
containing `Posted` together with one of `ago`, `h`, `d`, `m`; the
sentinel when no span qualifies. -/
def find_posting_time : List String → String
  | [] => "Posting time not found"
  | t :: rest =>
    if inStr "Posted" t && (inStr "ago" t || inStr "h" t || inStr "d" t || inStr "m" t) then t
    else find_posting_time rest

/-- Python's `needle in job_title.lower()`: the rule test of
`categorize_job_type`. -/
def inTitleLower (needle job_title : String) : Bool :=
  containsSub (lowerCh job_title.data) needle.data

/-- Embeds `categorize_job_type` (src/seek_scraper_jc.py lines 439-522):
the ordered if-chain of substring rules over the lower-cased title,
transcribed rule for rule (including the `Analytcis Engineer` typo). -/
def categorize_job_type (job_title : String) : String :=
  if inTitleLower "data analyst" job_title then "Data Analyst"
  else if inTitleLower "data engineer" job_title then "Data Engineer"
  else if inTitleLower "engineer" job_title then "Data Engineer"
  else if inTitleLower "business analyst" job_title then "Business Analyst"
  else if inTitleLower "analytics analyst" job_title then "Analytcis Engineer"
  else if inTitleLower "data scientist" job_title then "Data Scientist"
  else if inTitleLower "report developer" job_title then "Report Developer"
  else if inTitleLower "solutions architect" job_title then "Solutions Architect"
  else if inTitleLower "test analyst" job_title then "Test Analyst"
  else if inTitleLower "head of marketing" job_title then "Head of Marketing"
  else if inTitleLower "product marketer" job_title then "Product Marketer"
  else if inTitleLower "growth marketer" job_title then "Growth Marketer"
  else if inTitleLower "growth manager" job_title then "Growth Manager"
  else if inTitleLower "social media manager" job_title then "Social Media Manager"
  else if inTitleLower "content marketer" job_title then "Content Marketer"
  else if inTitleLower "digital marketer" job_title then "Digital Marketer"
  else if inTitleLower "graphic designer" job_title then "Graphic Designer"
  else if inTitleLower "community manager" job_title then "Community Manager"
  else if inTitleLower "seo specialist" job_title then "SEO Specialist"
  else if inTitleLower "marketing manager" job_title then "Marketing Manager"
  else if inTitleLower "marketing coordinator" job_title then "Marketing Coordinator"
  else if inTitleLower "marketing specialist" job_title then "Marketing Specialist"
  else if inTitleLower "marketing assistant" job_title then "Marketing Assistant"
  else if inTitleLower "marketing executive" job_title then "Marketing Executive"
  else if inTitleLower "marketing analyst" job_title then "Marketing Analyst"
  else "unknown"

/-- The rule table of `categorize_job_type` as an ordered list of
(substring, category) pairs, in source order. -/
def job_type_rules : List (String × String) :=
  [("data analyst", "Data Analyst"),
   ("data engineer", "Data Engineer"),
   ("engineer", "Data Engineer"),
   ("business analyst", "Business Analyst"),
   ("analytics analyst", "Analytcis Engineer"),
   ("data scientist", "Data Scientist"),
   ("report developer", "Report Developer"),
   ("solutions architect", "Solutions Architect"),
   ("test analyst", "Test Analyst"),
   ("head of marketing", "Head of Marketing"),
   ("product marketer", "Product Marketer"),
   ("growth marketer", "Growth Marketer"),
   ("growth manager", "Growth Manager"),
   ("social media manager", "Social Media Manager"),
   ("content marketer", "Content Marketer"),
   ("digital marketer", "Digital Marketer"),
   ("graphic designer", "Graphic Designer"),
   ("community manager", "Community Manager"),
   ("seo specialist", "SEO Specialist"),
   ("marketing manager", "Marketing Manager"),
   ("marketing coordinator", "Marketing Coordinator"),
   ("marketing specialist", "Marketing Specialist"),
   ("marketing assistant", "Marketing Assistant"),
   ("marketing executive", "Marketing Executive"),
   ("marketing analyst", "Marketing Analyst")]

/-- First-match semantics over the ordered rule table: the category of
the first rule whose substring occurs in the lower-cased title,
`unknown` when none matches. -/
def first_match_category (job_title : String) : String :=
  ((job_type_rules.find? (fun r => inTitleLower r.1 job_title)).map Prod.snd).getD "unknown"

/-- One listing record, embedding the Python result dict of
`extract_job_details`: `url` and `job_id` are always present; each other
key is `none` exactly when the dict lacks it (the error record carries
only `url`, `job_id` and `error`; the full record carries every field
except `error`). -/
structure JobRecord where
  url : String
  job_id : String
  job_title : Option String := none
  job_location : Option String := none
  company : Option String := none
  job_description : Option String := none
  posting_time : Option String := none
  job_type : Option String := none
  job_industry : Option String := none
  job_work_type : Option String := none
  error : Option String := none
deriving Repr, DecidableEq

/-- The detail-page URL `f"{self.base_url}/job/{job_id}"`. -/
def job_detail_url (job_id : String) : String := base_url ++ "/job/" ++ job_id

/-- The error record `{'url': ..., 'job_id': ..., 'error': str(e)}`
returned by the outer exception handler of `extract_job_details`. -/
def error_record (job_id e : String) : JobRecord :=
  { url := job_detail_url job_id, job_id := job_id, error := some e }

/-- Embeds `extract_job_details` (src/seek_scraper_jc.py lines 337-433).
`fetch` embeds `fetch_page` on the detail URL: `Except.error e` when the
fetch raises (the outer handler then returns the error record),
`Except.ok none` when it returns no markup (the method then returns
`None`), `Except.ok (some soup)` when the page loads.  Field extraction
mirrors the source: each `select_one` miss degrades to its sentinel
string, the posting time is the first qualifying span, and the category
is computed from the extracted title. -/
def extract_job_details (fetch : String → Except String (Option Soup))
    (job_id : String) : Option JobRecord :=
  let job_url := job_detail_url job_id
  match fetch job_url with
  | Except.error e => some (error_record job_id e)
  | Except.ok none => none
  | Except.ok (some soup) =>
    let job_title := sanitize_text ((soup.titleText).getD "Title not found")
    some
      { url := job_url
        job_id := job_id
        job_title := some job_title
        job_location := some (extract_location soup)
        company := some (sanitize_text ((soup.companyText).getD "Company not found"))
        job_description := some (sanitize_text ((soup.descriptionText).getD "Description not found"))
        posting_time := some (find_posting_time soup.detailSpans)
        job_type := some (categorize_job_type job_title)
        job_industry := some (sanitize_text ((soup.classificationsText).getD "Industry not found"))
        job_work_type := some (sanitize_text ((soup.workTypeText).getD "Work type not found")) }

/-- The per-record serialization loop of the batch endpoints: every
string value is passed through `sanitize_text` (the non-string branches
of the `isinstance` dispatch are dead here, every dict value being a
string). -/
def serialize_job (r : JobRecord) : JobRecord :=
  { url := sanitize_text r.url
    job_id := sanitize_text r.job_id
    job_title := r.job_title.map sanitize_text
    job_location := r.job_location.map sanitize_text
    company := r.company.map sanitize_text
    job_description := r.job_description.map sanitize_text
    posting_time := r.posting_time.map sanitize_text
    job_type := r.job_type.map sanitize_text
    job_industry := r.job_industry.map sanitize_text
    job_work_type := r.job_work_type.map sanitize_text
    error := r.error.map sanitize_text }

/-- Embeds the batch loop shared by `scrape_job_cards_batch_endpoint`
(src/seek_scraper_jc.py lines 647-681) and `background_scrape_and_send`
(lines 558-581): the listing ids are processed sequentially in input
order; each id's record (when `extract_job_details` returns one) is
serialized and appended; a `None` result is skipped; nothing aborts the
loop. -/
def scrape_job_cards_batch (fetch : String → Except String (Option Soup)) :
    List String → List JobRecord
  | [] => []
  | job_id :: rest =>
    match extract_job_details fetch job_id with
    | none => scrape_job_cards_batch fetch rest
    | some r => serialize_job r :: scrape_job_cards_batch fetch rest

/- ## Concrete fixtures used by witnesses and counterexamples -/

/-- Search-page card aged 2 hours (scenario of C1). -/
def card2h : Card := ⟨some "/job/84211001?type=standard", "Posted 2h ago"⟩

/-- Search-page card aged 1 day (scenario of C1). -/
def card1d : Card := ⟨some "/job/84211002?type=standard", "Posted 1d ago"⟩

/-- Search-page card aged 5 days (scenario of C1). -/
def card5d : Card := ⟨some "/job/84211003?type=standard", "Posted 5d ago"⟩

/-- Page 1 of the C1 scenario: three cards aged [2h, 1d, 5d] and a link
to page 2. -/
def page1 : Page := ⟨[card2h, card1d, card5d], some "https://www.seek.com.au/jobs?page=2"⟩

/-- Fetch behavior of the C1 scenario: page 1 is served; every other
URL (page 2 included) fails, so a result can only come from page 1. -/
def fetch1 : String → Option Page :=
  fun u => if u == "https://www.seek.com.au/jobs?page=1" then some page1 else none

/-- Page 1 of the C10 scenario: one in-window card and a link to
page 2. -/
def page1w : Page := ⟨[card2h], some "https://www.seek.com.au/jobs?page=2"⟩

/-- Fetch behavior of the C10 scenario: page 1 is served, the fetch of
page 2 fails after its retries (`fetch_page` returns `None`). -/
def fetch2 : String → Option Page :=
  fun u => if u == "https://www.seek.com.au/jobs?page=1" then some page1w else none

/-- Detail fetch that always comes back without markup, embedding a
listing page that fails to load after every retry without raising. -/
def fetchNoMarkup : String → Except String (Option Soup) :=
  fun _ => Except.ok none

/-- Detail fetch that raises on every URL, embedding a fetch whose final
attempt re-raises (the aiohttp fallback behavior). -/
def fetchRaises : String → Except String (Option Soup) :=
  fun _ => Except.error "connection reset"

/-- A fully populated listing page used by the C5 witness. -/
def soupA : Soup :=
  { titleText := some "Senior Data Analyst"
    locationContainer := some ⟨some "Sydney NSW", some "Sydney NSW", "Sydney NSW"⟩
    pageLocationAnchor := none
    companyText := some "Acme Pty Ltd"
    descriptionText := some "Great role"
    detailSpans := ["Save", "Posted 2h ago"]
    classificationsText := some "Information Technology"
    workTypeText := some "Full time" }

/-- Detail fetch of the C5 witness: listing 222 raises, every other
listing page loads `soupA`. -/
def fetchBatch : String → Except String (Option Soup) :=
  fun u =>
    if u == job_detail_url "222" then Except.error "boom"
    else Except.ok (some soupA)

/- ## Helper lemmas -/

/-- Mapping `sanitize_text` over an optional field is the identity. -/
theorem map_sanitize (x : Option String) : x.map sanitize_text = x := by
  cases x <;> rfl

/-- Serialization is the identity on records (every value is a string
and `sanitize_text` is the identity on well-formed Unicode). -/
theorem serialize_job_fix (r : JobRecord) : serialize_job r = r := by
  cases r
  simp [serialize_job, sanitize_text, map_sanitize]

/-- Unfolding equation of one `while True` iteration of the walk. -/
theorem walkLoop_succ (fetch : String → Option Page) (limit : Option String)
    (fuel : ℕ) (url : String) (acc : List JobCard) :
    walkLoop fetch limit (fuel + 1) url acc
      = match fetch url with
        | none => ([], ExitReason.fetchFail)
        | some page =>
          match processCards limit page.cards acc with
          | CardsResult.stopped cards => (cards, ExitReason.outOfWindow)
          | CardsResult.done cards =>
            match page.next with
            | none => (cards, ExitReason.noNext)
            | some nurl => walkLoop fetch limit fuel nurl cards := rfl

/-- The card loop on `pre ++ bad :: post` where nothing in `pre` stops
the walk and `bad` does: it returns early with exactly the entries of
`pre`'s linked cards appended to the accumulator; `bad` and everything
after it is dropped. -/
theorem processCards_split (limit : Option String) :
    ∀ (pre : List Card) (bad : Card) (post : List Card) (acc : List JobCard),
      (∀ c ∈ pre, card_stops limit c = false) →
      card_stops limit bad = true →
      processCards limit (pre ++ bad :: post) acc
        = CardsResult.stopped (acc ++ cardRecords pre) := by
  intro pre
  induction pre with
  | nil =>
    intro bad post acc _ hbad
    obtain ⟨h, hh⟩ : ∃ h, bad.href = some h := by
      cases hb : bad.href with
      | none => rw [card_stops, hb] at hbad; simp at hbad
      | some h => exact ⟨h, rfl⟩
    have hcond : (limit_truthy limit && !_is_within_time_limit bad.posted limit) = true := by
      rw [card_stops, hh] at hbad
      simpa using hbad
    simp [processCards, hh, hcond, cardRecords]
  | cons c pre' ih =>
    intro bad post acc hpre hbad
    have hc := hpre c (by simp)
    have hpre' : ∀ d ∈ pre', card_stops limit d = false :=
      fun d hd => hpre d (List.mem_cons_of_mem c hd)
    cases hch : c.href with
    | none =>
      have hrec := ih bad post acc hpre' hbad
      rw [List.cons_append, processCards, hch, hrec]
      simp [cardRecords, List.filterMap_cons, hch]
    | some href =>
      have hcond : (limit_truthy limit && !_is_within_time_limit c.posted limit) = false := by
        rw [card_stops, hch] at hc
        simpa using hc
      have hrec := ih bad post
        (acc ++ [⟨extract_job_id (urljoin base_url href), c.posted, urljoin base_url href⟩])
        hpre' hbad
      rw [List.cons_append, processCards, hch]
      simp only [hcond, Bool.false_eq_true, if_false]
      rw [hrec]
      simp [cardRecords, List.filterMap_cons, hch, List.append_assoc]

/-- One step of first-match lookup over the rule table. -/
theorem first_match_cons (t : String) (k : String × String) (rest : List (String × String)) :
    ((List.find? (fun r => inTitleLower r.1 t) (k :: rest)).map Prod.snd).getD "unknown"
      = if inTitleLower k.1 t then k.2
        else ((List.find? (fun r => inTitleLower r.1 t) rest).map Prod.snd).getD "unknown" := by
  cases h : inTitleLower k.1 t <;> simp [List.find?, h]

/-- A selenium retry loop in which no attempt succeeds and every
triggered session recreation completes returns `None` without
raising. -/
theorem seleniumGo_all_fail (attempts : ℕ → SelAttempt)
    (recreate : ℕ → Option String) (max_retries : ℕ) :
    ∀ l : List ℕ, (∀ a ∈ l, ∀ h, attempts a ≠ SelAttempt.success h) →
      (∀ a ∈ l, recreate a = none) →
      seleniumGo attempts recreate max_retries l = Except.ok none := by
  intro l
  induction l with
  | nil => intro _ _; rfl
  | cons a rest ih =>
    intro hl hr
    have hrest := ih (fun b hb => hl b (List.mem_cons_of_mem a hb))
      (fun b hb => hr b (List.mem_cons_of_mem a hb))
    cases hatt : attempts a with
    | success html => exact absurd hatt (hl a (by simp) html)
    | timeout => simpa [seleniumGo, hatt] using hrest
    | webdriver m =>
      rw [seleniumGo, hatt]
      dsimp only
      by_cases hc : a < max_retries - 1
      · cases hm : sessionFatal m with
        | true =>
          rw [if_pos hc, if_pos (rfl : true = true), hr a (by simp)]
          exact hrest
        | false =>
          rw [if_pos hc, if_neg (by simp)]
          exact hrest
      · rw [if_neg hc]
        exact hrest
    | failure m => simpa [seleniumGo, hatt] using hrest

/-- An aiohttp retry loop in which every attempt hits HTTP 403: it ends
with `None` (no exception), chooses a fresh user agent on every attempt
and sleeps `2 ^ attempt` after each. -/
theorem aiohttpGo_all_forbidden (attempts : ℕ → HttpAttempt) (ua : ℕ → String)
    (max_retries : ℕ) :
    ∀ (l : List ℕ) (agents : List String) (waits : List ℕ),
      (∀ a ∈ l, attempts a = HttpAttempt.forbidden) →
      aiohttpGo attempts ua max_retries l agents waits
        = ⟨Except.ok none, agents ++ l.map ua, waits ++ l.map (fun a => 2 ^ a)⟩ := by
  intro l
  induction l with
  | nil => intro agents waits _; simp [aiohttpGo]
  | cons a rest ih =>
    intro agents waits hl
    have ha := hl a (by simp)
    rw [aiohttpGo, ha]
    rw [ih _ _ (fun b hb => hl b (List.mem_cons_of_mem a hb))]
    simp

/-- An aiohttp retry loop in which every attempt raises and whose index
range reaches the final attempt index re-raises the exception. -/
theorem aiohttpGo_exc_raises (attempts : ℕ → HttpAttempt) (ua : ℕ → String)
    (max_retries : ℕ) (m : String) :
    ∀ (l : List ℕ) (agents : List String) (waits : List ℕ),
      (∀ a ∈ l, attempts a = HttpAttempt.exc m) →
      (∃ a ∈ l, max_retries - 1 ≤ a) →
      (aiohttpGo attempts ua max_retries l agents waits).result = Except.error m := by
  intro l
  induction l with
  | nil =>
    intro agents waits _ hex
    obtain ⟨a, ha, _⟩ := hex
    cases ha
  | cons a rest ih =>
    intro agents waits hl hex
    have ha := hl a (by simp)
    by_cases hc : a < max_retries - 1
    · have hex' : ∃ b ∈ rest, max_retries - 1 ≤ b := by
        obtain ⟨b, hb, hble⟩ := hex
        rcases List.mem_cons.mp hb with rfl | hb'
        · omega
        · exact ⟨b, hb', hble⟩
      rw [aiohttpGo, ha]
      simp only [if_pos hc]
      exact ih _ _ (fun b hb => hl b (List.mem_cons_of_mem a hb)) hex'
    · rw [aiohttpGo, ha]
      simp [if_neg hc]

/- ## Claim theorems -/

/-- C1: a pagination walk whose fetched page splits as `pre ++ bad ::
post`, where no card of `pre` stops the walk and `bad` is a linked card
outside the configured window, stops at `bad` and returns exactly the
entries of `pre`'s linked cards in document order, never `bad` nor any
later card; the result does not depend on `fetch` at any other URL, so
no further page is fetched.  The claim's scenario (page 1 holding cards
aged [2h, 1d, 5d] with window `1d ago`) instantiates this with
`pre = [card2h]`, `bad = card1d`. -/
theorem C1_pagination_stops_at_first_out_of_window :
    ∀ (fetch : String → Option Page) (limit : Option String) (fuel : ℕ) (url : String)
      (acc : List JobCard) (page : Page) (pre : List Card) (bad : Card) (post : List Card),
      fetch url = some page →
      page.cards = pre ++ bad :: post →
      (∀ c ∈ pre, card_stops limit c = false) →
      card_stops limit bad = true →
      walkLoop fetch limit (fuel + 1) url acc = (acc ++ cardRecords pre, ExitReason.outOfWindow)
      ∧ scrape_job_cards fetch url limit (fuel + 1) = cardRecords pre := by
  intro fetch limit fuel url acc page pre bad post hf hcards hpre hbad
  have hw : ∀ acc2 : List JobCard,
      walkLoop fetch limit (fuel + 1) url acc2
        = (acc2 ++ cardRecords pre, ExitReason.outOfWindow) := by
    intro acc2
    rw [walkLoop_succ, hf]
    dsimp only
    rw [hcards, processCards_split limit pre bad post acc2 hpre hbad]
  refine ⟨hw acc, ?_⟩
  rw [scrape_job_cards, hw []]
  simp

/-- C1 witness: the scenario of the claim.  Page 1 holds three cards
aged [2h, 1d, 5d], the window is `1d ago`, and `fetch1` fails on every
URL other than page 1 (page 2 included); the walk returns only the 2h
card, so page 2 was never consulted. -/
theorem C1_pagination_scenario_witness :
    fetch1 "https://www.seek.com.au/jobs?page=1" = some page1
    ∧ page1.cards = [card2h] ++ card1d :: [card5d]
    ∧ (∀ c ∈ [card2h], card_stops (some "1d ago") c = false)
    ∧ card_stops (some "1d ago") card1d = true
    ∧ scrape_job_cards fetch1 "https://www.seek.com.au/jobs?page=1" (some "1d ago") 4
        = cardRecords [card2h] :=
  ⟨by decide, by decide, by decide, by decide,
   (C1_pagination_stops_at_first_out_of_window fetch1 (some "1d ago") 3
      "https://www.seek.com.au/jobs?page=1" [] page1 [card2h] card1d [card5d]
      (by decide) (by decide) (by decide) (by decide)).2⟩

/-- C2 counterexample: the claim says both fetch modes return `None`
after `max_attempts` failed attempts and never raise past this
boundary.  In the aiohttp fallback, three attempts that all raise end
with the exception re-raised (`Except.error`), not with `None`, while
the selenium mode under generic failures with intact session handling
does return `None` — the two modes are not identical and the aiohttp
boundary does raise.  (Selenium mode also breaches the never-raises
contract on its own: a fatal webdriver error whose unguarded session
recreation fails escapes the boundary too.) -/
theorem C2_aiohttp_final_exception_counterexample :
    (_fetch_with_aiohttp (fun _ => HttpAttempt.exc "connection reset") (fun _ => "UA") 3).result
      = Except.error "connection reset"
    ∧ (_fetch_with_aiohttp (fun _ => HttpAttempt.exc "connection reset") (fun _ => "UA") 3).result
      ≠ Except.ok none
    ∧ _fetch_with_selenium (fun _ => SelAttempt.failure "connection reset") (fun _ => none) 3
        = Except.ok none
    ∧ _fetch_with_selenium (fun _ => SelAttempt.webdriver "invalid session id: session deleted")
        (fun _ => some "chrome failed to start") 3
        = Except.error "chrome failed to start" := by
  decide

/-- C2 amended: in selenium mode, `fetch_page` returns `None` after
`max_attempts` failed attempts without raising provided every
triggered session recreation completes; but the `driver.quit()` /
`_setup_selenium()` calls inside the `WebDriverException` handler are
unguarded, so a fatal webdriver error at a non-final attempt whose
recreation itself raises lets that exception escape the retry
boundary.  The aiohttp fallback chooses a fresh user agent on every
attempt and backs off `2 ^ attempt` on HTTP 403, returning `None` when
every attempt fails with an HTTP status; when the final attempt
raises, the exception is re-raised rather than converted to `None`.
Neither mode therefore upholds an unconditional never-raises contract,
and the failure behaviors of the two modes are not identical. -/
theorem C2_fetch_retry_amended :
    (∀ (attempts : ℕ → SelAttempt) (recreate : ℕ → Option String) (max_retries : ℕ),
       (∀ a h, attempts a ≠ SelAttempt.success h) →
       (∀ a, recreate a = none) →
       _fetch_with_selenium attempts recreate max_retries = Except.ok none)
    ∧ (∀ (attempts : ℕ → SelAttempt) (recreate : ℕ → Option String) (max_retries : ℕ)
         (m e : String),
       1 < max_retries →
       attempts 0 = SelAttempt.webdriver m →
       sessionFatal m = true →
       recreate 0 = some e →
       _fetch_with_selenium attempts recreate max_retries = Except.error e)
    ∧ (∀ (attempts : ℕ → HttpAttempt) (ua : ℕ → String) (max_retries : ℕ),
       (∀ a, attempts a = HttpAttempt.forbidden) →
       _fetch_with_aiohttp attempts ua max_retries
         = ⟨Except.ok none, (List.range max_retries).map ua,
            (List.range max_retries).map (fun a => 2 ^ a)⟩)
    ∧ (∀ (attempts : ℕ → HttpAttempt) (ua : ℕ → String) (max_retries : ℕ) (m : String),
       0 < max_retries → (∀ a, attempts a = HttpAttempt.exc m) →
       (_fetch_with_aiohttp attempts ua max_retries).result = Except.error m) := by
  refine ⟨?_, ?_, ?_, ?_⟩
  · intro attempts recreate max_retries hfail hrec
    exact seleniumGo_all_fail attempts recreate max_retries (List.range max_retries)
      (fun a _ => hfail a) (fun a _ => hrec a)
  · intro attempts recreate max_retries m e hmr hatt hfatal hrec
    obtain ⟨n, rfl⟩ : ∃ n, max_retries = n + 1 := ⟨max_retries - 1, by omega⟩
    rw [_fetch_with_selenium, List.range_succ_eq_map, seleniumGo, hatt]
    dsimp only
    rw [if_pos (show 0 < n + 1 - 1 by omega), if_pos hfatal, hrec]
  · intro attempts ua max_retries hforb
    rw [_fetch_with_aiohttp,
      aiohttpGo_all_forbidden attempts ua max_retries (List.range max_retries) [] []
        (fun a _ => hforb a)]
    simp
  · intro attempts ua max_retries m hpos hexc
    exact aiohttpGo_exc_raises attempts ua max_retries m (List.range max_retries) [] []
      (fun a _ => hexc a)
      ⟨max_retries - 1, List.mem_range.mpr (by omega), le_refl _⟩

/-- C2 witness: the amended contract at three attempts: selenium
all-timeouts with intact session handling end in `Except.ok none`; a
first-attempt fatal webdriver error whose session recreation raises
ends in `Except.error`; aiohttp all-403 runs end in `None` with one
fresh user agent and one `2 ^ attempt` wait per attempt; aiohttp
all-exception runs end re-raising. -/
theorem C2_fetch_retry_amended_witness :
    _fetch_with_selenium (fun _ => SelAttempt.timeout) (fun _ => none) 3 = Except.ok none
    ∧ _fetch_with_selenium (fun _ => SelAttempt.webdriver "invalid session id: session deleted")
        (fun _ => some "chrome failed to start") 3 = Except.error "chrome failed to start"
    ∧ _fetch_with_aiohttp (fun _ => HttpAttempt.forbidden) (fun a => toString a) 3
        = ⟨Except.ok none, (List.range 3).map (fun a => toString a),
           (List.range 3).map (fun a => 2 ^ a)⟩
    ∧ (_fetch_with_aiohttp (fun _ => HttpAttempt.exc "boom") (fun _ => "UA") 3).result
        = Except.error "boom" :=
  ⟨C2_fetch_retry_amended.1 (fun _ => SelAttempt.timeout) (fun _ => none) 3
      (fun _ _ hc => SelAttempt.noConfusion hc) (fun _ => rfl),
   C2_fetch_retry_amended.2.1 (fun _ => SelAttempt.webdriver "invalid session id: session deleted")
      (fun _ => some "chrome failed to start") 3 "invalid session id: session deleted"
      "chrome failed to start" (by decide) rfl (by decide) rfl,
   C2_fetch_retry_amended.2.2.1 (fun _ => HttpAttempt.forbidden) (fun a => toString a) 3
      (fun _ => rfl),
   C2_fetch_retry_amended.2.2.2 (fun _ => HttpAttempt.exc "boom") (fun _ => "UA") 3 "boom"
      (by decide) (fun _ => rfl)⟩

/-- C3: when the detail page yields no markup after all retries
(`fetch_page` returns `None` without raising), `extract_job_details`
returns `None` — no record at all, hence in particular not a record of
`not found` sentinels — and no exception crosses the boundary (the
embedding is a total function whose raising paths are the explicit
`Except.error` case, not taken here). -/
theorem C3_detail_none_on_failed_load :
    ∀ (fetch : String → Except String (Option Soup)) (job_id : String),
      fetch (job_detail_url job_id) = Except.ok none →
      extract_job_details fetch job_id = none := by
  intro fetch job_id h
  rw [extract_job_details, h]

/-- C3 witness: the claim's scenario `get_detail("999999")` against a
listing whose page never loads. -/
theorem C3_detail_none_on_failed_load_witness :
    fetchNoMarkup (job_detail_url "999999") = Except.ok none
    ∧ extract_job_details fetchNoMarkup "999999" = none :=
  ⟨rfl, C3_detail_none_on_failed_load fetchNoMarkup "999999" rfl⟩

/-- C4 counterexample: the claim says a listing whose detail page fails
to load yields a record carrying only `{id, url, error}`.  The code's
page-fails-to-load path (`fetch_page` returns no markup, here for
listing 999999) returns `None` — no record, no error field; the
`{id, url, error}` record is produced only on the distinct path where
an exception is raised. -/
theorem C4_failed_load_returns_none_counterexample :
    extract_job_details fetchNoMarkup "999999" = none
    ∧ (extract_job_details fetchNoMarkup "999999").isSome = false := by
  decide

/-- C4 amended: when the extraction raises — as the aiohttp fallback's
fetch does on a final-attempt exception — `extract_job_details` returns
a record carrying only the id, the url and an `error` field holding the
original error text; when the page merely fails to load without an
exception it returns `None` instead (the C3 behavior). -/
theorem C4_error_record_on_exception :
    ∀ (fetch : String → Except String (Option Soup)) (job_id e : String),
      fetch (job_detail_url job_id) = Except.error e →
      extract_job_details fetch job_id = some (error_record job_id e) := by
  intro fetch job_id e h
  rw [extract_job_details, h]

/-- C4 witness: a fetch that raises `connection reset` on every URL
yields the bare `{id, url, error}` record for listing 999999. -/
theorem C4_error_record_on_exception_witness :
    fetchRaises (job_detail_url "999999") = Except.error "connection reset"
    ∧ extract_job_details fetchRaises "999999"
        = some (error_record "999999" "connection reset") :=
  ⟨rfl, C4_error_record_on_exception fetchRaises "999999" "connection reset" rfl⟩

/-- The batch loop is the ordered filter-map of per-id extraction. -/
theorem batch_eq_filterMap (fetch : String → Except String (Option Soup)) :
    ∀ ids : List String,
      scrape_job_cards_batch fetch ids
        = ids.filterMap (fun i => (extract_job_details fetch i).map serialize_job) := by
  intro ids
  induction ids with
  | nil => rfl
  | cons i rest ih =>
    rw [scrape_job_cards_batch, List.filterMap_cons]
    cases h : extract_job_details fetch i with
    | none => simpa [h] using ih
    | some r => simpa [h] using ih

/-- C5: batch detail extraction processes the listing ids sequentially
and emits records in input-list order (the output is the ordered
filter-map of per-id extraction over the input list), and an id whose
extraction fails with an exception contributes an inline
`{id, url, error}` entry at its position rather than aborting the
batch: the ids before and after it are processed exactly as they would
be alone. -/
theorem C5_batch_order_and_inline_errors :
    (∀ (fetch : String → Except String (Option Soup)) (ids : List String),
       scrape_job_cards_batch fetch ids
         = ids.filterMap (fun i => (extract_job_details fetch i).map serialize_job))
    ∧ (∀ (fetch : String → Except String (Option Soup)) (pre post : List String)
         (bad e : String),
       fetch (job_detail_url bad) = Except.error e →
       scrape_job_cards_batch fetch (pre ++ bad :: post)
         = scrape_job_cards_batch fetch pre
           ++ error_record bad e :: scrape_job_cards_batch fetch post) := by
  constructor
  · exact batch_eq_filterMap
  · intro fetch pre post bad e h
    have hbad : extract_job_details fetch bad = some (error_record bad e) := by
      rw [extract_job_details, h]
    rw [batch_eq_filterMap, batch_eq_filterMap, batch_eq_filterMap, List.filterMap_append,
      List.filterMap_cons, hbad]
    simp [serialize_job_fix]

/-- C5 witness: the batch [111, 222, 333] where listing 222's fetch
raises `boom`: the result is the records of 111, then the inline error
record for 222, then the records of 333 — sequential, order-preserving,
not aborted. -/
theorem C5_batch_order_and_inline_errors_witness :
    fetchBatch (job_detail_url "222") = Except.error "boom"
    ∧ scrape_job_cards_batch fetchBatch (["111"] ++ "222" :: ["333"])
        = scrape_job_cards_batch fetchBatch ["111"]
          ++ error_record "222" "boom" :: scrape_job_cards_batch fetchBatch ["333"] :=
  ⟨by decide,
   C5_batch_order_and_inline_errors.2 fetchBatch ["111"] ["333"] "222" "boom" (by decide)⟩

/-- C6: `_is_within_time_limit` returns true for every posted text when
the limit is absent (`None`) or empty; for a truthy limit it returns
exactly the strict float comparison `to_days posted < to_days limit`;
and when the limit itself is unparseable (`to_days limit` is infinity)
every posting whose own age parses to a finite value passes — no
filtering, never "reject everything". -/
theorem C6_within_window_semantics :
    (∀ t, _is_within_time_limit t none = true)
    ∧ (∀ t, _is_within_time_limit t (some "") = true)
    ∧ (∀ p l, (l == "") = false →
        _is_within_time_limit p (some l)
          = daysLt (_convert_to_days p) (_convert_to_days l))
    ∧ (∀ l, (l == "") = false → _convert_to_days l = none →
        ∀ p, (_convert_to_days p).isSome = true →
          _is_within_time_limit p (some l) = true) := by
  refine ⟨fun t => rfl, fun t => rfl, ?_, ?_⟩
  · intro p l h
    rw [_is_within_time_limit]
    simp [h]
  · intro l h hl p hp
    obtain ⟨a, ha⟩ := Option.isSome_iff_exists.mp hp
    rw [_is_within_time_limit]
    simp [h, hl, ha, daysLt]

/-- C6 witness: absent and empty limits pass `Posted 9h ago`; the
truthy limit `3d ago` reduces to the strict day comparison; the
unparseable truthy limit `recently` passes the finitely-aged posting
`Posted 9h ago`. -/
theorem C6_within_window_semantics_witness :
    _is_within_time_limit "Posted 9h ago" none = true
    ∧ _is_within_time_limit "Posted 9h ago" (some "") = true
    ∧ (("3d ago" == "") = false
       ∧ _is_within_time_limit "Posted 9h ago" (some "3d ago")
           = daysLt (_convert_to_days "Posted 9h ago") (_convert_to_days "3d ago"))
    ∧ (("recently" == "") = false
       ∧ _convert_to_days "recently" = none
       ∧ (_convert_to_days "Posted 9h ago").isSome = true
       ∧ _is_within_time_limit "Posted 9h ago" (some "recently") = true) :=
  ⟨C6_within_window_semantics.1 "Posted 9h ago",
   C6_within_window_semantics.2.1 "Posted 9h ago",
   ⟨by decide, C6_within_window_semantics.2.2.1 "Posted 9h ago" "3d ago" (by decide)⟩,
   ⟨by decide, by decide, by decide,
    C6_within_window_semantics.2.2.2 "recently" (by decide) (by decide)
      "Posted 9h ago" (by decide)⟩⟩

/-- C7 counterexample: the claim describes the cleanup as stripping a
literal `posted` PREFIX and surrounding whitespace, and promises
`+infinity` for every input that is unparseable under that grammar.
The input `1posted h` is unparseable under the claimed prefix-stripping
grammar (`to_days_claimed` yields infinity: after no prefix strip the
leading integer `1` is followed by `p`, not a unit code), yet the code
removes the interior occurrence of `posted`, leaving `1 h`, and returns
the finite value 1/24 day. -/
theorem C7_posted_removal_counterexample :
    _convert_to_days "1posted h" = some ⟨1, 24⟩
    ∧ to_days_claimed "1posted h" = none := by
  decide

/-- C7 amended: `_convert_to_days` lower-cases the input, removes every
occurrence of `posted` (not only a prefix), trims whitespace, and
parses a leading integer followed by optional whitespace and a unit
code `m`, `h` or `d`, returning value/1440 days for minutes, value/24
for hours and value for days, so that
`to_days "Posted 120m ago" == to_days "Posted 2h ago"` (float equality,
`daysEqv`) and `to_days "Posted 1d ago" = 1.0`; it returns `+infinity`
(`none`) for empty input, for any input containing the literal text
`not found`, and for any input whose cleaned form fails the match. -/
theorem C7_to_days_amended :
    _convert_to_days "Posted 120m ago" = some ⟨120, 24 * 60⟩
    ∧ _convert_to_days "Posted 2h ago" = some ⟨2, 24⟩
    ∧ daysEqv ⟨120, 24 * 60⟩ ⟨2, 24⟩ = true
    ∧ _convert_to_days "Posted 1d ago" = some ⟨1, 1⟩
    ∧ _convert_to_days "POSTED 2H AGO" = _convert_to_days "posted 2h ago"
    ∧ _convert_to_days "" = none
    ∧ _convert_to_days "yesterday" = none
    ∧ _convert_to_days "Posting time not found" = none
    ∧ (∀ s, matchTime (cleanPostedTime s) = none → _convert_to_days s = none)
    ∧ (∀ s v u, (s == "") = false → inStr "not found" s = false →
        matchTime (cleanPostedTime s) = some (v, u) →
        _convert_to_days s = some (unit_to_days v u))
    ∧ (∀ v, unit_to_days v 'm' = ⟨v, 24 * 60⟩
        ∧ unit_to_days v 'h' = ⟨v, 24⟩
        ∧ unit_to_days v 'd' = ⟨v, 1⟩) := by
  refine ⟨by decide, by decide, by decide, by decide, by decide, by decide, by decide,
    by decide, ?_, ?_, fun v => ⟨rfl, rfl, rfl⟩⟩
  · intro s hm
    rw [_convert_to_days]
    cases hg : (s == "" || inStr "not found" s) with
    | true => simp [hg]
    | false => simp [hg, hm]
  · intro s v u h1 h2 hm
    rw [_convert_to_days]
    simp [h1, h2, hm]

/-- C7 witness: the amended parsing contract applied concretely — the
unparseable `tomorrow` maps to infinity, and `Posted 3d ago` parses to
the 3-day count through the match. -/
theorem C7_to_days_amended_witness :
    (matchTime (cleanPostedTime "tomorrow") = none
     ∧ _convert_to_days "tomorrow" = none)
    ∧ (("Posted 3d ago" == "") = false
       ∧ inStr "not found" "Posted 3d ago" = false
       ∧ matchTime (cleanPostedTime "Posted 3d ago") = some (3, 'd')
       ∧ _convert_to_days "Posted 3d ago" = some (unit_to_days 3 'd')) :=
  ⟨⟨by decide, C7_to_days_amended.2.2.2.2.2.2.2.2.1 "tomorrow" (by decide)⟩,
   ⟨by decide, by decide, by decide,
    C7_to_days_amended.2.2.2.2.2.2.2.2.2.1 "Posted 3d ago" 3 'd'
      (by decide) (by decide) (by decide)⟩⟩

set_option maxHeartbeats 2000000 in
/-- C8: `categorize_job_type` lower-cases the title and tests the
ordered substring rule table, returning the category of the first
matching rule and `unknown` when none matches — for any title matching
several rules the earlier-listed rule wins, since the result equals the
first-match semantics over the ordered table; in particular
`Senior Data Analyst` maps to `Data Analyst` and `Software Engineer`
maps to `Data Engineer` through the broad `engineer` fallback rule. -/
theorem C8_categorize_first_match :
    (∀ t, categorize_job_type t = first_match_category t)
    ∧ categorize_job_type "Senior Data Analyst" = "Data Analyst"
    ∧ categorize_job_type "Software Engineer" = "Data Engineer"
    ∧ categorize_job_type "Principal Plumber" = "unknown" := by
  refine ⟨?_, by decide, by decide, by decide⟩
  intro t
  rw [first_match_category, job_type_rules]
  repeat rw [first_match_cons]
  rfl

/-- C9 counterexample: `extract_job_id` is not idempotent.  Applied to
`https://site/job/123` it yields `123`; applied again to the bare id
`123` (which contains no `/job/`, so `find` yields `-1` and the slice
starts at index `-1 + 5 = 4`, past the end) it yields the empty string,
not `123`. -/
theorem C9_not_idempotent_counterexample :
    extract_job_id (extract_job_id "https://site/job/123")
      ≠ extract_job_id "https://site/job/123"
    ∧ extract_job_id "https://site/job/123" = "123"
    ∧ extract_job_id (extract_job_id "https://site/job/123") = "" := by
  decide

/-- C9 amended: for every URL containing `/job/` (first occurrence at
index `i`), `extract_job_id` returns the segment from index `i + 5` up
to the first `?` at or after that point, or to the end of the string
when there is no such `?` — so it is invariant under appending a query
string, and the two concrete equalities of the claim hold; it is
however not idempotent, since a bare id contains no `/job/` and is
sliced from index 4. -/
theorem C9_extract_job_id_amended :
    (∀ (url : String) (i : ℕ), pyFind url "/job/" 0 = (i : Int) →
      extract_job_id url
        = match findSubAux "?".data url.data (i + 5) 0 with
          | none => pySliceFrom url (i + 5)
          | some j => pySliceRange url (i + 5) j)
    ∧ extract_job_id "https://site/job/123?ref=x" = "123"
    ∧ extract_job_id "https://site/job/123" = "123" := by
  refine ⟨?_, by decide, by decide⟩
  intro url i h
  simp only [extract_job_id, h]
  have ht : ((i : Int) + 5).toNat = i + 5 := by omega
  rw [ht, pyFind]
  cases hq : findSubAux "?".data url.data (i + 5) 0 with
  | none => simp
  | some j =>
    have hne : (((j : Int)) == (-1 : Int)) = false := by
      simp only [beq_eq_false_iff_ne, ne_eq]
      omega
    simp [hne]

/-- C9 witness: the general segment description applied to the claim's
concrete URL, whose first `/job/` sits at index 12 and whose `?` sits
at index 20. -/
theorem C9_extract_job_id_amended_witness :
    pyFind "https://site/job/123?ref=x" "/job/" 0 = ((12 : ℕ) : Int)
    ∧ extract_job_id "https://site/job/123?ref=x"
        = match findSubAux "?".data "https://site/job/123?ref=x".data (12 + 5) 0 with
          | none => pySliceFrom "https://site/job/123?ref=x" (12 + 5)
          | some j => pySliceRange "https://site/job/123?ref=x" (12 + 5) j :=
  ⟨by decide,
   C9_extract_job_id_amended.1 "https://site/job/123?ref=x" 12 (by decide)⟩

/-- C10: a failed page fetch anywhere in the walk — later pages
included — makes `scrape_job_cards` return the empty list, discarding
every card accumulated so far; and a non-empty result can only arise
from a walk that ended on an out-of-window card or on a missing
next-page link.  The closed conjunct runs the two-page scenario: page 1
contributes an in-window card, the fetch of page 2 fails, and the whole
result is `[]`. -/
theorem C10_fetch_failure_discards_cards :
    (∀ (fetch : String → Option Page) (limit : Option String) (fuel : ℕ) (url : String)
       (acc : List JobCard),
       fetch url = none →
       walkLoop fetch limit (fuel + 1) url acc = ([], ExitReason.fetchFail))
    ∧ (∀ (fetch : String → Option Page) (limit : Option String) (fuel : ℕ) (url : String)
       (acc : List JobCard),
       (walkLoop fetch limit fuel url acc).1 ≠ [] →
       (walkLoop fetch limit fuel url acc).2 = ExitReason.outOfWindow
       ∨ (walkLoop fetch limit fuel url acc).2 = ExitReason.noNext)
    ∧ scrape_job_cards fetch2 "https://www.seek.com.au/jobs?page=1" (some "7d ago") 5 = [] := by
  refine ⟨?_, ?_, by decide⟩
  · intro fetch limit fuel url acc h
    rw [walkLoop_succ, h]
  · intro fetch limit fuel
    induction fuel with
    | zero =>
      intro url acc h
      exact absurd rfl h
    | succ fuel ih =>
      intro url acc h
      rw [walkLoop_succ] at h ⊢
      cases hf : fetch url with
      | none => rw [hf] at h; exact absurd rfl h
      | some page =>
        rw [hf] at h
        dsimp only at h ⊢
        cases hp : processCards limit page.cards acc with
        | stopped cards => exact Or.inl rfl
        | done cards =>
          rw [hp] at h
          dsimp only at h ⊢
          cases hn : page.next with
          | none => exact Or.inr rfl
          | some nurl => rw [hn] at h; exact ih nurl cards h

/-- C10 witness: the failing fetch of page 2 discards the card already
accumulated from page 1 (`walkLoop` returns `([], fetchFail)` from a
non-empty accumulator), and the non-empty result of the C1 scenario
indeed ended on an out-of-window card or missing next link. -/
theorem C10_fetch_failure_discards_cards_witness :
    fetch2 "https://www.seek.com.au/jobs?page=2" = none
    ∧ walkLoop fetch2 (some "7d ago") 4 "https://www.seek.com.au/jobs?page=2"
        (cardRecords [card2h]) = ([], ExitReason.fetchFail)
    ∧ (walkLoop fetch1 (some "1d ago") 4 "https://www.seek.com.au/jobs?page=1" []).1 ≠ []
    ∧ ((walkLoop fetch1 (some "1d ago") 4 "https://www.seek.com.au/jobs?page=1" []).2
          = ExitReason.outOfWindow
       ∨ (walkLoop fetch1 (some "1d ago") 4 "https://www.seek.com.au/jobs?page=1" []).2
          = ExitReason.noNext) :=
  ⟨by decide,
   C10_fetch_failure_discards_cards.1 fetch2 (some "7d ago") 3
     "https://www.seek.com.au/jobs?page=2" (cardRecords [card2h]) (by decide),
   by decide,
   C10_fetch_failure_discards_cards.2.1 fetch1 (some "1d ago") 4
     "https://www.seek.com.au/jobs?page=1" [] (by decide)⟩
